import Mathlib

/-!
Shallow embedding of the board-game recommendation endpoint
(src/recommendations.py) together with the catalog data model
(src/board_game.py).

External collaborators (ChromaDB, the OpenAI completion service, the
Python json decoder and the catalog lookup) are modelled as oracles: the
pipeline receives the outcome of each external call and the embedding
captures exactly the control flow that the endpoint performs on those
outcomes.
-/

set_option maxRecDepth 4000

/-- Catalog record for a board game. Modelled from the spec: the
response schema type (schemas.BoardGame) is not part of the sources; the
spec describes a CatalogGame as the externally owned entity carrying the
name and the full attributes, which here are the columns declared in
src/board_game.py. -/
structure BoardGame where
  id : Int
  name : String
  description : Option String
  min_players : Option Int
  max_players : Option Int
  play_time_min : Option Int
  play_time_max : Option Int
  complexity : Option Int
  image_url : Option String
  accessories : Option String
  tutorials : Option String
  status : String
deriving DecidableEq

/-- Modelled from the spec: schemas.BoardGame.from_orm is not in the
sources; per the spec the reconciler contributes the matched game's full
catalog record unchanged, so the ORM-to-schema conversion preserves the
record. -/
def from_orm (g : BoardGame) : BoardGame := g

/-- Request body of the endpoint (class RecommendationRequest):
preference is required, limit defaults to 5, retrieval_limit defaults
to 10; both integer fields are Optional, so an explicit JSON null is
accepted and yields the value none. -/
structure RecommendationRequest where
  preference : String
  limit : Option Int := some 5
  retrieval_limit : Option Int := some 10

/-- Parsed LLM output (class LLMRecommendation). -/
structure LLMRecommendation where
  recommended_game_names : List String
  explanation : String
deriving DecidableEq

/-- Response body of the endpoint (class RecommendationResponse). -/
structure RecommendationResponse where
  recommendations : List BoardGame
  explanation : String
deriving DecidableEq

/-- One metadata record returned by the Chroma query. The values are
kept as the strings they render to inside the Python f-string; a field
absent from the dict is none and the code substitutes the default
marker via dict.get. -/
structure ChromaMeta where
  name : Option String := none
  description : Option String := none
  min_players : Option String := none
  max_players : Option String := none
  play_time_min : Option String := none
  play_time_max : Option String := none
  complexity : Option String := none

/-- Python str() of an Optional[int] value as it renders in an f-string:
None renders as the text None, an int as its decimal form. -/
def pyStr : Option Int → String
  | none => "None"
  | some n => toString n

/-- Line 119: retrieval_limit = request.retrieval_limit if
request.retrieval_limit <= 20 else 20. On a None value the comparison
None <= 20 raises a TypeError, which the generic handler at the bottom
of the endpoint turns into the 500 internal error; on an int it caps
the value at 20 from above and applies no lower bound. -/
def computeRetrievalLimit : Option Int → Except String Int
  | none => .error "TypeError: not supported between instances of NoneType and int"
  | some n => .ok (if n ≤ 20 then n else 20)

/-- Lines 133-139: the per-game block of the context string, with the
dict.get default markers. -/
def gameInfo (i : Nat) (m : ChromaMeta) : String :=
  toString (i + 1) ++ ". 名称: " ++ m.name.getD "未知" ++
  "\n   描述: " ++ m.description.getD "无" ++
  "\n   玩家人数: " ++ m.min_players.getD "?" ++ "-" ++ m.max_players.getD "?" ++
  "\n   游戏时长: " ++ m.play_time_min.getD "?" ++ "-" ++ m.play_time_max.getD "?" ++ " 分钟" ++
  "\n   复杂度: " ++ m.complexity.getD "?"

/-- Line 144: the fallback text substituted for the context block when
retrieval returned nothing. -/
def fallbackStr : String :=
  "数据库中没有找到与用户偏好紧密匹配的桌游。请根据普遍知识进行推荐。"

/-- Lines 129-145: the context string. The query result carries one
metadata list per query text; the code tests that the metadatas list is
nonempty and that its first element is a nonempty list, joining the
enumerated game blocks with blank lines, and otherwise substitutes the
fallback text. -/
def contextGamesStr (metadatas : List (List ChromaMeta)) : String :=
  match metadatas with
  | (m :: ms) :: _ =>
      String.intercalate "\n\n" (((m :: ms).enum).map (fun p => gameInfo p.1 p.2))
  | _ => fallbackStr

/-- Literal prompt text before the first interpolation of request.limit. -/
def promptPart1 : String :=
  "\n作为一位资深的桌游推荐专家，请根据用户的喜好和我们数据库中可能相关的桌游列表，推荐 "

/-- Literal prompt text between request.limit and request.preference. -/
def promptPart2 : String :=
  " 款最适合的桌游。\n\n用户喜好: \""

/-- Literal prompt text between request.preference and the context block. -/
def promptPart3 : String :=
  "\"\n\n数据库中检索到的可能相关的桌游信息如下 (如果列表为空，请基于用户喜好和您的广泛知识进行推荐):\n--- BEGIN CONTEXT GAMES ---\n"

/-- Literal prompt text between the context block and the second
interpolation of request.limit. -/
def promptPart4 : String :=
  "\n--- END CONTEXT GAMES ---\n\n请仔细分析用户喜好和提供的游戏信息。你的任务是:\n1. 从提供的游戏列表 (如果适用) 或你的知识库中，挑选出最多 "

/-- Literal prompt text after the second interpolation of request.limit. -/
def promptPart5 : String :=
  " 款最符合用户喜好的桌游。\n2. 对每个推荐的桌游，请确保它真实存在。\n3. 提供一个整体的解释，说明为什么这些桌游适合该用户。\n\n请以JSON格式返回你的推荐，必须包含以下两个字段:\n- \"recommended_game_names\": 一个包含推荐桌游准确名称的列表 (例如: [\"卡坦岛\", \"七大奇迹\"])。\n- \"explanation\": 一段详细的中文解释，说明这些游戏为什么被推荐，它们如何满足用户的偏好。\n\n重要提示:\n- 如果提供的上下文中没有合适的游戏，可以从你的知识库中推荐。\n- 确保推荐的游戏名称是准确且常见的中文名称。\n- 返回的JSON必须严格符合上述结构。\n"

/-- Lines 148-171: the user prompt, an f-string interpolating
request.limit twice, request.preference once and the context string
once. -/
def buildPrompt (preference : String) (limit : Option Int) (ctx : String) : String :=
  promptPart1 ++ pyStr limit ++ promptPart2 ++ preference ++ promptPart3 ++
    ctx ++ promptPart4 ++ pyStr limit ++ promptPart5

/-- JSON values, as produced by the Python json decoder. -/
inductive Json where
  | null : Json
  | bool : Bool → Json
  | num : Int → Json
  | str : String → Json
  | arr : List Json → Json
  | obj : List (String × Json) → Json

/-- Key lookup in a decoded JSON object. -/
def lookupField (fields : List (String × Json)) (key : String) : Option Json :=
  match fields with
  | [] => none
  | (k, v) :: rest => if k = key then some v else lookupField rest key

/-- Reads a JSON array as a list of strings, failing on any non-string
element (the declared element type of recommended_game_names is str). -/
def asStringList : List Json → Option (List String)
  | [] => some []
  | .str s :: rest => (asStringList rest).map (fun l => s :: l)
  | _ => none

/-- Validation of the recommended_game_names field against its declared
type List[str]. -/
def validateNames : Option Json → Except String (List String)
  | some (.arr items) =>
      match asStringList items with
      | some names => .ok names
      | none => .error "recommended_game_names: items must be strings"
  | some _ => .error "recommended_game_names: value is not a valid list"
  | none => .error "recommended_game_names: field required"

/-- Validation of the explanation field against its declared type str. -/
def validateExplanation : Option Json → Except String String
  | some (.str s) => .ok s
  | some _ => .error "explanation: value is not a valid string"
  | none => .error "explanation: field required"

/-- Line 195: LLMRecommendation(**data). The decoded value must be an
object; each required field must be present with its declared type;
extra fields are ignored. Any failure raises a validation error, caught
at line 199. -/
def validateLLM : Json → Except String LLMRecommendation
  | .obj fields =>
      match validateNames (lookupField fields "recommended_game_names"),
            validateExplanation (lookupField fields "explanation") with
      | .ok ns, .ok e => .ok { recommended_game_names := ns, explanation := e }
      | .error m, _ => .error m
      | .ok _, .error m => .error m
  | _ => .error "argument after ** must be a mapping"

/-- The response-level error categories, one per raise site of the
endpoint, each carrying what the code puts in the detail string or in
the log. -/
inductive ApiError where
  | configError : ApiError
  | retrievalInfraError : ApiError
  | modelServiceError : String → ApiError
  | malformedOutput : String → String → ApiError
  | invalidShape : String → String → ApiError
  | internalError : String → ApiError
deriving DecidableEq

/-- HTTP status code of each error category. -/
def statusOf : ApiError → Nat
  | .configError => 500
  | .retrievalInfraError => 500
  | .modelServiceError _ => 503
  | .malformedOutput _ _ => 500
  | .invalidShape _ _ => 500
  | .internalError _ => 500

/-- Detail string of each error category, as raised by the endpoint.
For malformed model output the detail is a fixed sentence: the raw text
is only logged, never returned. -/
def detailOf : ApiError → String
  | .configError => "服务器未正确配置OpenAI API"
  | .retrievalInfraError => "Error connecting to vector database."
  | .modelServiceError m => "LLM service error: " ++ m
  | .malformedOutput _ _ => "Error parsing recommendations from LLM."
  | .invalidShape m _ => "Invalid recommendation format from LLM: " ++ m
  | .internalError m => "推荐过程中发生内部错误: " ++ m

/-- Lines 192-201: the parse stage. A json decode failure maps to the
malformed-output error (raw text kept as diagnostic context for the
log); a validation failure maps to the invalid-shape error. -/
def parseStage (decoded : Except String Json) (raw : String) :
    Except ApiError LLMRecommendation :=
  match decoded with
  | .error m => .error (.malformedOutput m raw)
  | .ok v =>
      match validateLLM v with
      | .ok r => .ok r
      | .error m => .error (.invalidShape m raw)

/-- Lines 210-218: the reconciliation loop. Each recommended name is
looked up in the catalog in order; a hit appends the converted record,
a miss only logs a warning. -/
def reconcileLoop (get_by_name : String → Option BoardGame) :
    List String → List BoardGame → List BoardGame
  | [], acc => acc
  | n :: rest, acc =>
      match get_by_name n with
      | some g => reconcileLoop get_by_name rest (acc ++ [from_orm g])
      | none => reconcileLoop get_by_name rest acc

/-- Lines 210-218 entry: the accumulator starts empty and the loop only
runs when the name list is truthy (nonempty). -/
def reconcile (get_by_name : String → Option BoardGame) (names : List String) :
    List BoardGame :=
  if names.isEmpty then [] else reconcileLoop get_by_name names []

/-- Outcomes of the external collaborators consumed by one request:
Chroma collection initialization, the Chroma query (by n_results), the
OpenAI API key setting, the completion call (by attempt index and
prompt), the json decoder, and the catalog lookup by name. -/
structure Oracles where
  chromaInit : Except String Unit
  chromaQuery : Int → Except String (List (List ChromaMeta))
  apiKeySet : Bool
  llmCall : Nat → String → Except String String
  jsonDecode : String → Except String Json
  get_by_name : String → Option BoardGame

/-- The endpoint recommend_board_games (lines 95-230). Stage order and
error mapping follow the source: collection init failure is the vector
database error; a TypeError from the limit comparison or a query
failure falls to the generic internal error; a missing API key is the
configuration error; a completion failure is the 503 service error; the
parse stage maps as in parseStage; otherwise the reconciled games and
the explanation form the success response. -/
def recommend_board_games (o : Oracles) (req : RecommendationRequest) :
    Except ApiError RecommendationResponse :=
  match o.chromaInit with
  | .error _ => .error .retrievalInfraError
  | .ok _ =>
    match computeRetrievalLimit req.retrieval_limit with
    | .error m => .error (.internalError m)
    | .ok rl =>
      match o.chromaQuery rl with
      | .error m => .error (.internalError m)
      | .ok mds =>
        let ctx := contextGamesStr mds
        let prompt := buildPrompt req.preference req.limit ctx
        if o.apiKeySet then
          match o.llmCall 0 prompt with
          | .error m => .error (.modelServiceError m)
          | .ok raw =>
            match parseStage (o.jsonDecode raw) raw with
            | .error err => .error err
            | .ok rec =>
                .ok { recommendations := reconcile o.get_by_name rec.recommended_game_names,
                      explanation := rec.explanation }
        else .error .configError

/-- Discriminator: the parse stage ended in the invalid-shape category. -/
def resultIsInvalidShape : Except ApiError LLMRecommendation → Bool
  | .error (.invalidShape _ _) => true
  | _ => false

/-- Discriminator for JSON string values. -/
def Json.isStr : Json → Bool
  | .str _ => true
  | _ => false

/-- Discriminator for JSON array values. -/
def Json.isArr : Json → Bool
  | .arr _ => true
  | _ => false

/-- A concrete catalog record used in the witnesses. -/
def catanGame : BoardGame :=
  { id := 1, name := "卡坦岛", description := some "贸易与建设", min_players := some 3,
    max_players := some 4, play_time_min := some 60, play_time_max := some 120,
    complexity := some 2, image_url := none, accessories := none, tutorials := none,
    status := "approved" }

/-- A second concrete catalog record used in the witnesses. -/
def wondersGame : BoardGame :=
  { catanGame with id := 2, name := "七大奇迹" }

/-- A concrete two-game catalog lookup used in the witnesses. -/
def demoCatalog : String → Option BoardGame :=
  fun n =>
    if n = "卡坦岛" then some catanGame
    else if n = "七大奇迹" then some wondersGame
    else none

/-- A concrete well-shaped model output whose second name misses the
catalog. -/
def goodJson : Json :=
  .obj [("recommended_game_names", .arr [.str "卡坦岛", .str "不存在的桌游"]),
        ("explanation", .str "适合双人对抗")]

/-- A concrete well-shaped model output both of whose names resolve. -/
def bigJson : Json :=
  .obj [("recommended_game_names", .arr [.str "卡坦岛", .str "七大奇迹"]),
        ("explanation", .str "都很适合")]

/-- Concrete collaborator outcomes where every stage succeeds. -/
def demoOracles : Oracles :=
  { chromaInit := .ok (), chromaQuery := fun _ => .ok [],
    apiKeySet := true, llmCall := fun _ _ => .ok "raw",
    jsonDecode := fun _ => .ok goodJson, get_by_name := demoCatalog }

/-- A concrete request with the default limits. -/
def demoReq : RecommendationRequest :=
  { preference := "双人策略", limit := some 5, retrieval_limit := some 10 }

/-- A concrete request whose result limit is 1. -/
def limitOneReq : RecommendationRequest :=
  { preference := "双人策略", limit := some 1, retrieval_limit := some 10 }

/-- A concrete request that supplies retrieval_limit as an explicit
null. -/
def nullLimitReq : RecommendationRequest :=
  { preference := "双人策略", limit := some 5, retrieval_limit := none }

/-- A concrete well-shaped model output with an empty name list and a
non-empty explanation. -/
def emptyJsonRec : Json :=
  .obj [("recommended_game_names", .arr []), ("explanation", .str "没有匹配")]

/-- Concrete collaborator outcomes where the model returns no names. -/
def emptyRecOracles : Oracles :=
  { demoOracles with jsonDecode := fun _ => .ok emptyJsonRec }

/-- Concrete collaborator outcomes where both recommended names
resolve in the catalog. -/
def fullMatchOracles : Oracles :=
  { demoOracles with jsonDecode := fun _ => .ok bigJson }

/-- A completion oracle failing on the first attempt and succeeding on
any later one. -/
def llmFailA : Nat → String → Except String String :=
  fun i _ => if i = 0 then .error "Connection error" else .ok "second"

/-- A completion oracle failing on the first attempt and behaving
differently from llmFailA on any later one. -/
def llmFailB : Nat → String → Except String String :=
  fun i _ => if i = 0 then .error "Connection error" else .error "other"

/-- Helper: validating a JSON array built from string values recovers
exactly those values. -/
theorem asStringList_map_str (names : List String) :
    asStringList (names.map Json.str) = some names := by
  induction names with
  | nil => rfl
  | cons n rest ih => simp [asStringList, ih]

/-- Helper: the reconciliation loop appends, in order, the converted
record of every name that the catalog resolves. -/
theorem reconcileLoop_append (g : String → Option BoardGame) (names : List String)
    (acc : List BoardGame) :
    reconcileLoop g names acc = acc ++ names.filterMap g := by
  induction names generalizing acc with
  | nil => simp [reconcileLoop]
  | cons n rest ih =>
    cases h : g n with
    | none => simp [reconcileLoop, h, ih]
    | some x => simp [reconcileLoop, h, ih, from_orm]

/-- Helper: reconciliation equals filterMap over the catalog lookup. -/
theorem reconcile_eq_filterMap (g : String → Option BoardGame) (names : List String) :
    reconcile g names = names.filterMap g := by
  cases names with
  | nil => simp [reconcile]
  | cons n rest => simp [reconcile, reconcileLoop_append]

/-- Claim C2: for every requested retrieval_limit the effective limit
passed to the vector-store query is min(requested, 20): inputs above 20
become exactly 20 and inputs at most 20 pass through unchanged. -/
theorem retrieval_limit_is_min_requested_20 (n : Int) :
    computeRetrievalLimit (some n) = .ok (min n 20)
    ∧ (20 < n → computeRetrievalLimit (some n) = .ok 20)
    ∧ (n ≤ 20 → computeRetrievalLimit (some n) = .ok n) := by
  refine ⟨?_, fun h => ?_, fun h => ?_⟩
  · simp [computeRetrievalLimit, min_def]
  · simp [computeRetrievalLimit, show ¬ n ≤ 20 by omega]
  · simp [computeRetrievalLimit, h]

/-- Witness for C2 at the concrete inputs 25 and 7. -/
theorem retrieval_limit_is_min_requested_20_witness :
    computeRetrievalLimit (some 25) = .ok 20
    ∧ computeRetrievalLimit (some 7) = .ok 7 :=
  ⟨(retrieval_limit_is_min_requested_20 25).2.1 (by decide),
   (retrieval_limit_is_min_requested_20 7).2.2 (by decide)⟩

/-- Claim C8 counterexample: the requested value -5 is not clamped to
the interval [0, 20]; the effective limit is -5, not 0. -/
theorem retrieval_limit_no_lower_clamp_counterexample :
    computeRetrievalLimit (some (-5)) = .ok (-5)
    ∧ computeRetrievalLimit (some (-5)) ≠ .ok 0 := by
  refine ⟨rfl, fun h => ?_⟩
  rw [show computeRetrievalLimit (some (-5)) = Except.ok (-5) from rfl] at h
  exact absurd (Except.ok.inj h) (by decide)

/-- Claim C8 amended: the requested retrieval limit is only capped
above at 20; a negative input is passed to the vector query unchanged,
with no lower clamp at 0. -/
theorem retrieval_limit_negative_passthrough (n : Int) (h : n < 0) :
    computeRetrievalLimit (some n) = .ok n := by
  simp [computeRetrievalLimit, show n ≤ 20 by omega]

/-- Witness for the amended C8 at the concrete input -7. -/
theorem retrieval_limit_negative_passthrough_witness :
    (-7 : Int) < 0 ∧ computeRetrievalLimit (some (-7)) = .ok (-7) :=
  ⟨by decide, retrieval_limit_negative_passthrough (-7) (by decide)⟩

/-- Claim C10: a request whose retrieval_limit is an explicit null
makes the comparison against 20 fault instead of applying the default
of 10; the endpoint terminates with the generic 500 internal error, and
the outcome does not depend on the vector query at all. -/
theorem null_retrieval_limit_internal_error (o : Oracles) (req : RecommendationRequest)
    (q : Int → Except String (List (List ChromaMeta)))
    (hInit : o.chromaInit = .ok ())
    (hNull : req.retrieval_limit = none) :
    computeRetrievalLimit req.retrieval_limit =
      .error "TypeError: not supported between instances of NoneType and int"
    ∧ recommend_board_games o req =
      .error (.internalError "TypeError: not supported between instances of NoneType and int")
    ∧ statusOf (.internalError "TypeError: not supported between instances of NoneType and int") = 500
    ∧ recommend_board_games { o with chromaQuery := q } req = recommend_board_games o req := by
  refine ⟨by rw [hNull]; rfl, ?_, rfl, ?_⟩
  · simp [recommend_board_games, hInit, hNull, computeRetrievalLimit]
  · simp [recommend_board_games, hInit, hNull, computeRetrievalLimit]

/-- Witness for C10 at a concrete request with retrieval_limit null. -/
theorem null_retrieval_limit_internal_error_witness :
    computeRetrievalLimit nullLimitReq.retrieval_limit =
      .error "TypeError: not supported between instances of NoneType and int"
    ∧ recommend_board_games demoOracles nullLimitReq =
      .error (.internalError "TypeError: not supported between instances of NoneType and int")
    ∧ statusOf (.internalError "TypeError: not supported between instances of NoneType and int") = 500
    ∧ recommend_board_games { demoOracles with chromaQuery := fun _ => .error "down" } nullLimitReq
        = recommend_board_games demoOracles nullLimitReq :=
  null_retrieval_limit_internal_error demoOracles nullLimitReq (fun _ => .error "down") rfl rfl

/-- Claim C3: when the vector retrieval step returns an empty result
set, the context string is exactly the general-knowledge fallback
instruction, that instruction is not the empty string, and the prompt
embeds it in place of the context block between the BEGIN and END
markers. -/
theorem empty_retrieval_prompt_fallback (pref : String) (lim : Option Int)
    (mds : List (List ChromaMeta)) (h : mds.head?.getD [] = []) :
    contextGamesStr mds = fallbackStr
    ∧ fallbackStr ≠ ""
    ∧ buildPrompt pref lim (contextGamesStr mds) =
        (promptPart1 ++ pyStr lim ++ promptPart2 ++ pref ++ promptPart3) ++
          fallbackStr ++ (promptPart4 ++ pyStr lim ++ promptPart5) := by
  have hctx : contextGamesStr mds = fallbackStr := by
    match mds with
    | [] => rfl
    | [] :: rest => rfl
    | (m :: ms) :: rest => simp at h
  refine ⟨hctx, by decide, ?_⟩
  rw [hctx]
  simp [buildPrompt, String.append_assoc]

/-- Witness for C3 at an empty retrieval result. -/
theorem empty_retrieval_prompt_fallback_witness :
    contextGamesStr [] = fallbackStr
    ∧ fallbackStr ≠ ""
    ∧ buildPrompt "双人策略" (some 5) (contextGamesStr []) =
        (promptPart1 ++ pyStr (some 5) ++ promptPart2 ++ "双人策略" ++ promptPart3) ++
          fallbackStr ++ (promptPart4 ++ pyStr (some 5) ++ promptPart5) :=
  empty_retrieval_prompt_fallback "双人策略" (some 5) [] rfl

/-- Claim C4: a decoded JSON object carrying the field
recommended_game_names as an array of strings and the field explanation
as a string parses to the LLMRecommendation with exactly that list and
that string, whatever the field order and any extra fields. -/
theorem parse_round_trip (fields : List (String × Json)) (names : List String)
    (e raw : String)
    (h1 : lookupField fields "recommended_game_names" = some (.arr (names.map Json.str)))
    (h2 : lookupField fields "explanation" = some (.str e)) :
    parseStage (.ok (.obj fields)) raw =
      .ok { recommended_game_names := names, explanation := e } := by
  simp [parseStage, validateLLM, h1, h2, validateNames, validateExplanation,
    asStringList_map_str]

/-- Witness for C4 at a concrete object with reversed field order and a
duplicated name. -/
theorem parse_round_trip_witness :
    parseStage (.ok (.obj [("explanation", .str "双人适合"),
        ("recommended_game_names", .arr [.str "卡坦岛", .str "卡坦岛"])])) "r" =
      .ok { recommended_game_names := ["卡坦岛", "卡坦岛"], explanation := "双人适合" } :=
  parse_round_trip _ ["卡坦岛", "卡坦岛"] "双人适合" "r" rfl rfl

/-- Claim C5: whenever the completion call succeeded but its text does
not decode as JSON, the endpoint terminates with the malformed-output
category: a 500 internal processing error whose detail is a fixed
sentence, the raw text kept only as diagnostic context; no unhandled
fault escapes. -/
theorem malformed_output_error (o : Oracles) (req : RecommendationRequest)
    (rl : Int) (mds : List (List ChromaMeta)) (raw m : String)
    (hInit : o.chromaInit = .ok ())
    (hLim : computeRetrievalLimit req.retrieval_limit = .ok rl)
    (hQ : o.chromaQuery rl = .ok mds)
    (hKey : o.apiKeySet = true)
    (hLLM : o.llmCall 0 (buildPrompt req.preference req.limit (contextGamesStr mds)) = .ok raw)
    (hDec : o.jsonDecode raw = .error m) :
    recommend_board_games o req = .error (.malformedOutput m raw)
    ∧ statusOf (.malformedOutput m raw) = 500
    ∧ detailOf (.malformedOutput m raw) = "Error parsing recommendations from LLM." := by
  refine ⟨?_, rfl, rfl⟩
  simp [recommend_board_games, hInit, hLim, hQ, hKey, hLLM, hDec, parseStage]

/-- Witness for C5 at a concrete truncated response. -/
theorem malformed_output_error_witness :
    recommend_board_games { demoOracles with jsonDecode := fun _ => .error "Expecting value" } demoReq
      = .error (.malformedOutput "Expecting value" "raw")
    ∧ statusOf (.malformedOutput "Expecting value" "raw") = 500
    ∧ detailOf (.malformedOutput "Expecting value" "raw") = "Error parsing recommendations from LLM." :=
  malformed_output_error { demoOracles with jsonDecode := fun _ => .error "Expecting value" }
    demoReq 10 [] "raw" "Expecting value" rfl rfl rfl rfl rfl rfl

/-- Claim C6: a decoded JSON value missing the explanation field,
missing the recommended_game_names field, or carrying either field with
a wrong type, makes the parse stage end in the invalid-shape category,
with no partial recovery. -/
theorem invalid_shape_error (raw : String)
    (fA fB fC fD : List (String × Json)) (vC vD : Json)
    (hA : lookupField fA "explanation" = none)
    (hB : lookupField fB "recommended_game_names" = none)
    (hC : lookupField fC "explanation" = some vC) (hCt : vC.isStr = false)
    (hD : lookupField fD "recommended_game_names" = some vD) (hDt : vD.isArr = false) :
    resultIsInvalidShape (parseStage (.ok (.obj fA)) raw) = true
    ∧ resultIsInvalidShape (parseStage (.ok (.obj fB)) raw) = true
    ∧ resultIsInvalidShape (parseStage (.ok (.obj fC)) raw) = true
    ∧ resultIsInvalidShape (parseStage (.ok (.obj fD)) raw) = true := by
  refine ⟨?_, ?_, ?_, ?_⟩
  · cases hn : validateNames (lookupField fA "recommended_game_names") with
    | error m => simp [parseStage, validateLLM, hn, resultIsInvalidShape]
    | ok ns => simp [parseStage, validateLLM, hn, hA, validateExplanation, resultIsInvalidShape]
  · simp [parseStage, validateLLM, hB, validateNames, resultIsInvalidShape]
  · cases hn : validateNames (lookupField fC "recommended_game_names") with
    | error m => simp [parseStage, validateLLM, hn, resultIsInvalidShape]
    | ok ns =>
      cases vC with
      | str s => simp [Json.isStr] at hCt
      | null => simp [parseStage, validateLLM, hn, hC, validateExplanation, resultIsInvalidShape]
      | bool b => simp [parseStage, validateLLM, hn, hC, validateExplanation, resultIsInvalidShape]
      | num k => simp [parseStage, validateLLM, hn, hC, validateExplanation, resultIsInvalidShape]
      | arr xs => simp [parseStage, validateLLM, hn, hC, validateExplanation, resultIsInvalidShape]
      | obj fs => simp [parseStage, validateLLM, hn, hC, validateExplanation, resultIsInvalidShape]
  · cases vD with
    | arr xs => simp [Json.isArr] at hDt
    | null => simp [parseStage, validateLLM, hD, validateNames, resultIsInvalidShape]
    | bool b => simp [parseStage, validateLLM, hD, validateNames, resultIsInvalidShape]
    | num k => simp [parseStage, validateLLM, hD, validateNames, resultIsInvalidShape]
    | str s => simp [parseStage, validateLLM, hD, validateNames, resultIsInvalidShape]
    | obj fs => simp [parseStage, validateLLM, hD, validateNames, resultIsInvalidShape]

/-- Witness for C6 at four concrete malformed structures. -/
theorem invalid_shape_error_witness :
    resultIsInvalidShape (parseStage (.ok (.obj [("recommended_game_names", .arr [])])) "r") = true
    ∧ resultIsInvalidShape (parseStage (.ok (.obj [("explanation", .str "好")])) "r") = true
    ∧ resultIsInvalidShape (parseStage (.ok (.obj [("recommended_game_names", .arr []),
        ("explanation", .num 7)])) "r") = true
    ∧ resultIsInvalidShape (parseStage (.ok (.obj [("recommended_game_names", .str "卡坦岛"),
        ("explanation", .str "好")])) "r") = true :=
  invalid_shape_error "r"
    [("recommended_game_names", .arr [])]
    [("explanation", .str "好")]
    [("recommended_game_names", .arr []), ("explanation", .num 7)]
    [("recommended_game_names", .str "卡坦岛"), ("explanation", .str "好")]
    (.num 7) (.str "卡坦岛") rfl rfl rfl rfl rfl rfl

/-- Helper: filterMap keeps the length when every element maps to some
value. -/
theorem length_filterMap_of_isSome {α β : Type} (f : α → Option β) (l : List α)
    (h : ∀ a ∈ l, (f a).isSome = true) :
    (l.filterMap f).length = l.length := by
  induction l with
  | nil => rfl
  | cons x xs ih =>
    have hx := h x (by simp)
    cases hfx : f x with
    | none => rw [hfx] at hx; simp at hx
    | some y =>
      simp [List.filterMap_cons, hfx, ih (fun a ha => h a (by simp [ha]))]

/-- Helper: filterMap is empty when every element maps to none. -/
theorem filterMap_eq_nil_of_none {α β : Type} (f : α → Option β) (l : List α)
    (h : ∀ a ∈ l, f a = none) : l.filterMap f = [] := by
  induction l with
  | nil => rfl
  | cons x xs ih =>
    simp [List.filterMap_cons, h x (by simp), ih (fun a ha => h a (by simp [ha]))]

/-- Helper: the success path of the endpoint, given the outcome of every
stage up to a successfully parsed model output. -/
theorem recommend_parse_ok (o : Oracles) (req : RecommendationRequest)
    (rl : Int) (mds : List (List ChromaMeta)) (raw : String) (r : LLMRecommendation)
    (hInit : o.chromaInit = .ok ())
    (hLim : computeRetrievalLimit req.retrieval_limit = .ok rl)
    (hQ : o.chromaQuery rl = .ok mds)
    (hKey : o.apiKeySet = true)
    (hLLM : o.llmCall 0 (buildPrompt req.preference req.limit (contextGamesStr mds)) = .ok raw)
    (hParse : parseStage (o.jsonDecode raw) raw = .ok r) :
    recommend_board_games o req =
      .ok { recommendations := reconcile o.get_by_name r.recommended_game_names,
            explanation := r.explanation } := by
  simp [recommend_board_games, hInit, hLim, hQ, hKey, hLLM, hParse]

/-- Claim C1: reconciliation looks each parsed name up in order; every
matched name contributes its full record in the input order with
duplicates preserved (the list equals filterMap over the catalog
lookup), unmatched names are merely excluded, and the request succeeds
with the explanation unchanged, including when zero names match. -/
theorem catalog_reconciliation_order_and_success (o : Oracles) (req : RecommendationRequest)
    (rl : Int) (mds : List (List ChromaMeta)) (raw : String)
    (names : List String) (expl : String)
    (hInit : o.chromaInit = .ok ())
    (hLim : computeRetrievalLimit req.retrieval_limit = .ok rl)
    (hQ : o.chromaQuery rl = .ok mds)
    (hKey : o.apiKeySet = true)
    (hLLM : o.llmCall 0 (buildPrompt req.preference req.limit (contextGamesStr mds)) = .ok raw)
    (hParse : parseStage (o.jsonDecode raw) raw =
      .ok { recommended_game_names := names, explanation := expl }) :
    reconcile o.get_by_name names = names.filterMap o.get_by_name
    ∧ recommend_board_games o req =
        .ok { recommendations := names.filterMap o.get_by_name, explanation := expl }
    ∧ ((∀ n ∈ names, o.get_by_name n = none) →
        recommend_board_games o req = .ok { recommendations := [], explanation := expl }) := by
  have hrec := recommend_parse_ok o req rl mds raw
    { recommended_game_names := names, explanation := expl }
    hInit hLim hQ hKey hLLM hParse
  rw [reconcile_eq_filterMap] at hrec
  refine ⟨reconcile_eq_filterMap o.get_by_name names, hrec, fun hnone => ?_⟩
  rw [hrec, filterMap_eq_nil_of_none o.get_by_name names hnone]

/-- Witness for C1: one of two names matches and contributes the full
record; with an empty name list the request still succeeds with the
explanation intact. -/
theorem catalog_reconciliation_order_and_success_witness :
    recommend_board_games demoOracles demoReq =
      .ok { recommendations := [catanGame], explanation := "适合双人对抗" }
    ∧ recommend_board_games emptyRecOracles demoReq =
      .ok { recommendations := [], explanation := "没有匹配" } :=
  ⟨(catalog_reconciliation_order_and_success demoOracles demoReq 10 [] "raw"
      ["卡坦岛", "不存在的桌游"] "适合双人对抗" rfl rfl rfl rfl rfl rfl).2.1,
   (catalog_reconciliation_order_and_success emptyRecOracles demoReq 10 [] "raw"
      [] "没有匹配" rfl rfl rfl rfl rfl rfl).2.1⟩

/-- Helper: the endpoint consults the completion oracle only at attempt
index 0 — two completion oracles agreeing on the first attempt yield
identical request outcomes. -/
theorem llm_single_attempt (o : Oracles) (req : RecommendationRequest)
    (f g : Nat → String → Except String String)
    (hfg : ∀ p, f 0 p = g 0 p) :
    recommend_board_games { o with llmCall := f } req
      = recommend_board_games { o with llmCall := g } req := by
  have h0 : f 0 = g 0 := funext hfg
  obtain ⟨ci, cq, key, lc, jd, gbn⟩ := o
  simp only [recommend_board_games, h0]

/-- Claim C7: a failing completion call terminates the request with the
503 model-service error and no partial recommendation data, and the
endpoint makes at most one completion attempt: oracles agreeing on the
first attempt are indistinguishable. -/
theorem model_service_error_single_attempt (o : Oracles) (req : RecommendationRequest)
    (rl : Int) (mds : List (List ChromaMeta)) (e : String)
    (f g : Nat → String → Except String String)
    (hInit : o.chromaInit = .ok ())
    (hLim : computeRetrievalLimit req.retrieval_limit = .ok rl)
    (hQ : o.chromaQuery rl = .ok mds)
    (hKey : o.apiKeySet = true)
    (hLLM : o.llmCall 0 (buildPrompt req.preference req.limit (contextGamesStr mds)) = .error e)
    (hfg : ∀ p, f 0 p = g 0 p) :
    recommend_board_games o req = .error (.modelServiceError e)
    ∧ statusOf (.modelServiceError e) = 503
    ∧ recommend_board_games { o with llmCall := f } req
        = recommend_board_games { o with llmCall := g } req := by
  refine ⟨?_, rfl, llm_single_attempt o req f g hfg⟩
  simp [recommend_board_games, hInit, hLim, hQ, hKey, hLLM]

/-- Witness for C7 at a concrete transport error. -/
theorem model_service_error_single_attempt_witness :
    recommend_board_games { demoOracles with llmCall := llmFailA } demoReq
      = .error (.modelServiceError "Connection error")
    ∧ statusOf (.modelServiceError "Connection error") = 503
    ∧ recommend_board_games { demoOracles with llmCall := llmFailA } demoReq
        = recommend_board_games { demoOracles with llmCall := llmFailB } demoReq :=
  model_service_error_single_attempt { demoOracles with llmCall := llmFailA } demoReq
    10 [] "Connection error" llmFailA llmFailB rfl rfl rfl rfl rfl (fun _ => rfl)

/-- Claim C9: the request's result limit is never enforced on the
output: given any parsed model output, the response carries every
recommended name that resolves in the catalog — the full filterMap over
the lookup, whose length equals the name count when all resolve —
whatever the value of the limit field. -/
theorem limit_not_enforced_on_output (o : Oracles) (req : RecommendationRequest)
    (rl : Int) (mds : List (List ChromaMeta)) (raw : String)
    (names : List String) (expl : String)
    (hInit : o.chromaInit = .ok ())
    (hLim : computeRetrievalLimit req.retrieval_limit = .ok rl)
    (hQ : o.chromaQuery rl = .ok mds)
    (hKey : o.apiKeySet = true)
    (hLLM : o.llmCall 0 (buildPrompt req.preference req.limit (contextGamesStr mds)) = .ok raw)
    (hParse : parseStage (o.jsonDecode raw) raw =
      .ok { recommended_game_names := names, explanation := expl })
    (hAll : ∀ n ∈ names, (o.get_by_name n).isSome = true) :
    recommend_board_games o req =
      .ok { recommendations := names.filterMap o.get_by_name, explanation := expl }
    ∧ (names.filterMap o.get_by_name).length = names.length := by
  have hrec := recommend_parse_ok o req rl mds raw
    { recommended_game_names := names, explanation := expl }
    hInit hLim hQ hKey hLLM hParse
  rw [reconcile_eq_filterMap] at hrec
  exact ⟨hrec, length_filterMap_of_isSome o.get_by_name names hAll⟩

/-- Witness for C9: with the limit field set to 1 the response still
carries both resolving names. -/
theorem limit_not_enforced_on_output_witness :
    limitOneReq.limit = some 1
    ∧ recommend_board_games fullMatchOracles limitOneReq =
        .ok { recommendations := [catanGame, wondersGame], explanation := "都很适合" }
    ∧ (["卡坦岛", "七大奇迹"].filterMap fullMatchOracles.get_by_name).length = 2 :=
  ⟨rfl,
   (limit_not_enforced_on_output fullMatchOracles limitOneReq 10 [] "raw"
      ["卡坦岛", "七大奇迹"] "都很适合" rfl rfl rfl rfl rfl rfl (by decide)).1,
   (limit_not_enforced_on_output fullMatchOracles limitOneReq 10 [] "raw"
      ["卡坦岛", "七大奇迹"] "都很适合" rfl rfl rfl rfl rfl rfl (by decide)).2⟩
